import Mathlib

/-!
Verification development for `scripts/session_router.py`.

The Python program is shallowly embedded: each dataclass becomes a structure,
each enum an inductive type, and each method a pure Lean function.  Python
`int` is modelled as `Int`; Python lists as `List`; `None`-able values as
`Option`.  Methods that mutate `self.state` are modelled as functions from the
old `SessionState` to the new one.
-/

namespace SessionRouter

/-- Embeds the `Priority` enum (session_router.py lines 32-37). -/
inductive Priority where
  | critical
  | high
  | medium
  | low
  | deferred
deriving DecidableEq, Repr

/-- Python `Priority.value`: the ordinal of the enum member. -/
def Priority.value : Priority → Nat
  | .critical => 1
  | .high => 2
  | .medium => 3
  | .low => 4
  | .deferred => 5

/-- Python `Priority.name`: the member name as written in the source. -/
def Priority.name : Priority → String
  | .critical => "CRITICAL"
  | .high => "HIGH"
  | .medium => "MEDIUM"
  | .low => "LOW"
  | .deferred => "DEFERRED"

/-- Embeds the `Status` enum (lines 39-45). -/
inductive Status where
  | not_started
  | in_progress
  | blocked
  | ready_for_review
  | ready_for_deployment
  | complete
deriving DecidableEq, Repr

/-- Python `Status.value`: the string value of the enum member. -/
def Status.value : Status → String
  | .not_started => "Not Started"
  | .in_progress => "In Progress"
  | .blocked => "Blocked"
  | .ready_for_review => "Ready for Review"
  | .ready_for_deployment => "Ready for Deployment"
  | .complete => "Complete"

/-- Embeds the `AgentType` enum (lines 47-54). -/
inductive AgentType where
  | claude_code
  | codex
  | chatgpt
  | perplexity
  | gemini
  | log_monitor
  | router
deriving DecidableEq, Repr

/-- Python `AgentType.value`: the string value of the enum member. -/
def AgentType.value : AgentType → String
  | .claude_code => "Claude Code"
  | .codex => "Codex"
  | .chatgpt => "ChatGPT"
  | .perplexity => "Perplexity"
  | .gemini => "Gemini"
  | .log_monitor => "Log Monitor"
  | .router => "Router (Decision Engine)"

/-- Embeds the `Subtask` dataclass (lines 56-66), with the source's defaults. -/
structure Subtask where
  id : String
  description : String
  agent : AgentType
  estimated_minutes : Int
  dependencies : List String := []
  parallel_ok : Bool := true
  status : Status := Status.not_started
  prompt : String := ""
deriving DecidableEq, Repr

/-- Embeds the `Task` dataclass (lines 68-83), with the source's defaults. -/
structure Task where
  id : String
  name : String
  project : String
  status : Status
  priority : Priority
  estimated_minutes : Int
  agent : AgentType
  description : String
  context_files : List String := []
  blocks_tasks : List String := []
  blocked_by : List String := []
  subtasks : List Subtask := []
  current_subtask_index : Nat := 0
deriving DecidableEq, Repr

/-- Embeds the `SessionState` dataclass (lines 85-95), with the source's
defaults; this is the persisted progress ledger. -/
structure SessionState where
  last_task_id : Option String := none
  last_subtask_id : Option String := none
  last_agent : Option String := none
  last_updated : String := ""
  completed_subtasks : List String := []
deriving DecidableEq, Repr

/-- `prefixOfBool pat l` is true when `pat` is a prefix of `l`. -/
def prefixOfBool : List Char → List Char → Bool
  | [], _ => true
  | _ :: _, [] => false
  | a :: pat, b :: l => a == b && prefixOfBool pat l

/-- `containsSub pat l` is true when `pat` occurs contiguously inside `l`. -/
def containsSub (pat : List Char) : List Char → Bool
  | [] => prefixOfBool pat []
  | b :: l => prefixOfBool pat (b :: l) || containsSub pat l

/-- Embeds Python substring membership `pat in s`. -/
def strContains (s pat : String) : Bool :=
  containsSub pat.data s.data

/-- Embeds Python `str.lower()`, character by character.  `Char.toLower`
matches CPython on ASCII, which covers every pattern the router tests for. -/
def str_lower (s : String) : String :=
  ⟨s.data.map Char.toLower⟩

/-- Embeds `TaskDecomposer.decompose_task` (lines 283-421): five fixed
decomposition patterns tried in order, first match wins.  The only deviation
from the Python text: patterns 3 and 4 compute `int(minutes * f)` with `f` a
binary floating-point literal (0.4, 0.2, 0.7, 0.3); here that truncating float
product is modelled as exact rational truncation `Int.tdiv (minutes * num) den`,
which agrees with CPython except for float-rounding noise on isolated inputs.
No theorem below inspects those two patterns' durations. -/
def decompose_task (task : Task) : List Subtask :=
  if strContains (str_lower task.name) ("implement") || strContains (str_lower task.name) ("create") then
    [ { id := task.id ++ "_plan",
        description := "Plan implementation for: " ++ task.name,
        agent := AgentType.chatgpt,
        estimated_minutes := 10,
        parallel_ok := false },
      { id := task.id ++ "_implement",
        description := "Implement: " ++ task.name,
        agent := task.agent,
        estimated_minutes := task.estimated_minutes - 30,
        dependencies := [task.id ++ "_plan"],
        parallel_ok := false },
      { id := task.id ++ "_review",
        description := "Review implementation: " ++ task.name,
        agent := AgentType.codex,
        estimated_minutes := 10,
        dependencies := [task.id ++ "_implement"],
        parallel_ok := false },
      { id := task.id ++ "_test",
        description := "Test and validate: " ++ task.name,
        agent := AgentType.claude_code,
        estimated_minutes := 10,
        dependencies := [task.id ++ "_review"],
        parallel_ok := false } ]
  else if strContains (str_lower task.name) ("document") || strContains (str_lower task.name) ("research") then
    [ { id := task.id ++ "_research",
        description := "Research: " ++ task.name,
        agent := AgentType.perplexity,
        estimated_minutes := Int.fdiv task.estimated_minutes 3,
        parallel_ok := true },
      { id := task.id ++ "_document",
        description := "Document findings: " ++ task.name,
        agent := AgentType.codex,
        estimated_minutes := Int.fdiv task.estimated_minutes 3,
        dependencies := [task.id ++ "_research"],
        parallel_ok := false },
      { id := task.id ++ "_review",
        description := "Review documentation: " ++ task.name,
        agent := AgentType.chatgpt,
        estimated_minutes := Int.fdiv task.estimated_minutes 3,
        dependencies := [task.id ++ "_document"],
        parallel_ok := false } ]
  else if task.project == "home-assistant-config" then
    [ { id := task.id ++ "_yaml",
        description := "Draft YAML for: " ++ task.name,
        agent := AgentType.codex,
        estimated_minutes := Int.tdiv (task.estimated_minutes * 2) 5,
        parallel_ok := false },
      { id := task.id ++ "_review",
        description := "Review YAML structure and conventions: " ++ task.name,
        agent := AgentType.chatgpt,
        estimated_minutes := Int.tdiv task.estimated_minutes 5,
        dependencies := [task.id ++ "_yaml"],
        parallel_ok := false },
      { id := task.id ++ "_validate",
        description := "Validate syntax and deploy: " ++ task.name,
        agent := AgentType.claude_code,
        estimated_minutes := Int.tdiv task.estimated_minutes 5,
        dependencies := [task.id ++ "_review"],
        parallel_ok := false },
      { id := task.id ++ "_test",
        description := "Test automation on server: " ++ task.name,
        agent := AgentType.claude_code,
        estimated_minutes := Int.tdiv task.estimated_minutes 5,
        dependencies := [task.id ++ "_validate"],
        parallel_ok := false } ]
  else if strContains (str_lower task.name) ("fix") || strContains (str_lower task.name) ("cleanup")
      || strContains (str_lower task.name) ("refactor") then
    [ { id := task.id ++ "_fix",
        description := "Fix/cleanup: " ++ task.name,
        agent := task.agent,
        estimated_minutes := Int.tdiv (task.estimated_minutes * 7) 10,
        parallel_ok := false },
      { id := task.id ++ "_verify",
        description := "Verify fix: " ++ task.name,
        agent := AgentType.claude_code,
        estimated_minutes := Int.tdiv (task.estimated_minutes * 3) 10,
        dependencies := [task.id ++ "_fix"],
        parallel_ok := false } ]
  else
    [ { id := task.id ++ "_complete",
        description := task.name,
        agent := task.agent,
        estimated_minutes := task.estimated_minutes,
        parallel_ok := false } ]

/-- Embeds `SessionRouter._find_next_incomplete_subtask` (lines 883-891):
scan `task.subtasks` in order, return the first whose id is not in
`completed_subtasks` and whose dependencies are all in `completed_subtasks`. -/
def find_next_incomplete_subtask (task : Task) (st : SessionState) : Option Subtask :=
  task.subtasks.find? fun s =>
    !(st.completed_subtasks.contains s.id)
      && s.dependencies.all (fun dep => st.completed_subtasks.contains dep)

/-- Embeds the completion append in `SessionRouter.continue_last_task`
(line 909): `self.state.completed_subtasks.append(subtask_id)`; this is the
spec's `markComplete`. -/
def mark_complete (st : SessionState) (subtask_id : String) : SessionState :=
  { st with completed_subtasks := st.completed_subtasks ++ [subtask_id] }

/-- A JSON value, modelling what `json.loads` can return. -/
inductive Json where
  | null
  | bool (b : Bool)
  | num (n : Int)
  | str (s : String)
  | arr (elems : List Json)
  | obj (members : List (String × Json))

/-- The `SessionState` value exactly as Python's `SessionState(**data)`
constructs it from a parsed ledger.  Python dataclasses do not enforce the
annotated field types, so each field holds whatever JSON value the ledger
supplied for it — possibly ill-typed, e.g. `last_task_id: 42` or a
`completed_subtasks` that is not a list of strings — or the dataclass default
when the key is absent. -/
structure PySessionState where
  last_task_id : Json := Json.null
  last_subtask_id : Json := Json.null
  last_agent : Json := Json.null
  last_updated : Json := Json.str ""
  completed_subtasks : Json := Json.arr []

/-- One keyword argument of the Python call `SessionState(**data)`: a known
field name stores its value verbatim — the dataclass performs no type
checking — while an unknown name raises `TypeError` (modelled as `none`). -/
def decodeField (st : PySessionState) : String × Json → Option PySessionState
  | (k, v) =>
    if k == "last_task_id" then some { st with last_task_id := v }
    else if k == "last_subtask_id" then some { st with last_subtask_id := v }
    else if k == "last_agent" then some { st with last_agent := v }
    else if k == "last_updated" then some { st with last_updated := v }
    else if k == "completed_subtasks" then some { st with completed_subtasks := v }
    else none

/-- Models `SessionState(**data)`: start from the dataclass defaults and apply
every member of the parsed JSON object in order (later duplicates win, as in a
Python dict built by `json.loads`).  The call raises — `none` here — exactly
when `data` is not a mapping (`**` fails) or contains an unexpected keyword;
wrong-shaped values for known fields are accepted and stored unchanged. -/
def decodeSessionState : Json → Option PySessionState
  | .obj ms => ms.foldlM decodeField {}
  | _ => none

/-- Embeds `SessionRouter._load_state` (lines 736-744).  The file system and
`json.loads` are abstracted into the argument: `none` means the state file
does not exist, `some none` means it exists but `json.loads` raised, and
`some (some v)` means it parsed to the JSON value `v`.  The `try/except` in
the source swallows exactly the `json.loads` and `SessionState(**data)`
exceptions and falls back to a fresh default `SessionState`; a successfully
constructed state is returned as is, even when its field values are
ill-typed. -/
def load_state (ledger : Option (Option Json)) : PySessionState :=
  match ledger with
  | some (some v) => (decodeSessionState v).getD {}
  | _ => {}

/-- The sort key used by `SessionRouter.show_backlog` (lines 765-770) for the
per-project ranking: Python's tuple
`(t.status != Status.IN_PROGRESS, t.priority.value, len(t.blocks_tasks),
t.estimated_minutes)`, with the leading bool mapped to 0/1 as Python orders
`False < True`. -/
def taskKey (t : Task) : Nat × Nat × Nat × Int :=
  (cond (t.status == Status.in_progress) 0 1,
   t.priority.value,
   t.blocks_tasks.length,
   t.estimated_minutes)

/-- Lexicographic comparison of sort keys, as Python compares tuples. -/
def lexLE : Nat × Nat × Nat × Int → Nat × Nat × Nat × Int → Bool
  | (a1, a2, a3, a4), (b1, b2, b3, b4) =>
    if a1 ≠ b1 then decide (a1 < b1)
    else if a2 ≠ b2 then decide (a2 < b2)
    else if a3 ≠ b3 then decide (a3 < b3)
    else decide (a4 ≤ b4)

/-- The total preorder on tasks induced by the backlog sort key. -/
def taskLe (a b : Task) : Prop := lexLE (taskKey a) (taskKey b) = true

instance : DecidableRel taskLe := fun a b => by unfold taskLe; infer_instance

/-- Embeds the per-project stable sort `project_tasks.sort(key=...)` in
`SessionRouter.show_backlog` (lines 764-770).  Python's `list.sort` is a
stable sort by the key; any stable sort computes the same list, so it is
modelled by stable insertion sort on the induced total preorder. -/
def rank_project_tasks (l : List Task) : List Task :=
  List.insertionSort taskLe l

/-- The grouping step of `show_backlog` (lines 756-761): the sub-backlog of
one project, in source order, with `Complete` tasks dropped. -/
def backlog_project_tasks (tasks : List Task) (project : String) : List Task :=
  tasks.filter fun t => !(t.status == Status.complete) && t.project == project

/-- One project group of `show_backlog` as finally displayed: grouped, then
ranked. -/
def show_backlog_group (tasks : List Task) (project : String) : List Task :=
  rank_project_tasks (backlog_project_tasks tasks project)

/-- Embeds the exit code of `main` (lines 930-966).  `has_github_dir` models
the `.github` directory check; `arg` models `sys.argv[1]` (absent when the
script is invoked with no flag); `st` is the loaded ledger; `tasks` the parsed
backlog.  `--next` runs `continue_last_task` and then calls `sys.exit(0)`
unconditionally; `--last` exits 0 only when the recorded last task id resolves
to a parsed task, else prints and exits 1; any other invocation falls through
to interactive mode and ends with the implicit exit code 0. -/
def main_exit (has_github_dir : Bool) (arg : Option String) (st : SessionState)
    (tasks : List Task) : Nat :=
  if !has_github_dir then 1
  else
    match arg with
    | some a =>
      if a == "--next" then 0
      else if a == "--last" then
        match st.last_task_id with
        | some tid =>
          match tasks.find? (fun t => t.id == tid) with
          | some _ => 0
          | none => 1
        | none => 1
      else 0
    | none => 0

/-- Embeds `PromptGenerator._find_next_subtask` (lines 535-547): position of
the current subtask in the chain by dataclass equality, then the successor if
any (`list.index` raising `ValueError` is the `none` branch). -/
def find_next_subtask (task : Task) (current_subtask : Subtask) : Option Subtask :=
  match task.subtasks.findIdx? (fun s => s == current_subtask) with
  | some current_index =>
    if current_index + 1 < task.subtasks.length then
      task.subtasks[current_index + 1]?
    else
      none
  | none => none

/-- Embeds `PromptGenerator._get_task_specific_instructions` (lines 549-669):
two-axis dispatch on review-ness of the subtask id and the assigned agent. -/
def get_task_specific_instructions (task : Task) (subtask : Subtask) : String :=
  let is_review := strContains subtask.id ("review") || strContains subtask.id ("verify")
  if is_review && subtask.agent == AgentType.codex then
    "\n**As Codex (Reviewer), your role is:**\n- Review code quality and conventions\n- Check documentation completeness\n- Verify YAML syntax and structure\n- Ensure consistency with existing patterns\n\n**For this review task:**\n1. Read the work done by previous agent (check git log)\n2. Review against conventions in "
      ++ task.project
      ++ "/LOCAL_CONTEXT.md\n3. Check for:\n   - Code follows style guide\n   - Documentation is clear\n   - No obvious bugs or issues\n   - Naming conventions followed\n4. If issues found:\n   - Document them clearly\n   - Suggest fixes (or fix them yourself if minor)\n5. If all good:\n   - Approve and document what was validated\n   - Hand off to next agent\n"
  else if is_review && subtask.agent == AgentType.chatgpt then
    "\n**As ChatGPT (Reviewer), your role is:**\n- Review logic and design decisions\n- Check for edge cases and potential issues\n- Validate completeness\n- Suggest improvements\n\n**For this review task:**\n1. Read the work done by previous agent (check git log)\n2. Analyze for:\n   - Logic correctness\n   - Edge cases covered\n   - User experience considerations\n   - Potential failure modes\n3. If concerns found:\n   - Document them with examples\n   - Suggest alternatives\n4. If approved:\n   - Document what was validated\n   - Note any future enhancements\n"
  else if is_review && subtask.agent == AgentType.claude_code then
    "\n**As Claude Code (Validator), your role is:**\n- Test functionality\n- Verify deployment works\n- Check server-side behavior\n- Validate real-world operation\n\n**For this validation task:**\n1. Review previous agent\x27s work (check git log)\n2. Test the implementation:\n   - Run on actual server (if HA project)\n   - Check logs for errors\n   - Verify expected behavior\n3. If issues found:\n   - Debug and fix them\n   - Document what was wrong\n4. If working:\n   - Document test results\n   - Confirm ready for production\n"
  else if subtask.agent == AgentType.codex then
    "\n**As Codex, your role is:**\n- Documentation writing\n- YAML drafting\n- Code formatting\n- PR reviews\n\n**For this task:**\n1. Read the context files listed above\n2. "
      ++ subtask.description
      ++ "\n3. Follow conventions documented in "
      ++ task.project
      ++ "/LOCAL_CONTEXT.md\n4. Commit your work with clear messages\n"
  else if subtask.agent == AgentType.claude_code then
    "\n**As Claude Code, your role is:**\n- Server operations (SSH)\n- Deployment and validation\n- Complex debugging\n- Entity registry edits\n\n**For this task:**\n1. Verify work from previous agent (check git log)\n2. "
      ++ subtask.description
      ++ "\n3. If deployment: Use sync_to_ha.sh and test on 192.168.4.141\n4. Confirm everything works before committing\n"
  else if subtask.agent == AgentType.chatgpt then
    "\n**As ChatGPT, your role is:**\n- Planning and brainstorming\n- Breaking down complex problems\n- Architecture decisions\n- Coordinating workflows\n\n**For this task:**\n1. "
      ++ subtask.description
      ++ "\n2. Document your decisions clearly\n3. Create actionable next steps for implementation agents\n"
  else
    subtask.description ++ "\n\nFollow the conventions in " ++ task.project ++ "/LOCAL_CONTEXT.md"

/-- Embeds `PromptGenerator._generate_success_criteria` (lines 671-710). -/
def generate_success_criteria (task : Task) (subtask : Subtask) : String :=
  let is_review := strContains subtask.id ("review") || strContains subtask.id ("verify")
  if is_review then
    let criteria :=
      "\n- [ ] Reviewed previous agent\x27s work (checked git log)\n- [ ] Verified against project conventions\n- [ ] Checked for logic errors or edge cases\n- [ ] Tested functionality (if applicable)\n"
    let criteria := criteria ++
      (if subtask.agent == AgentType.claude_code then
        "- [ ] Tested on server (if HA project)\n- [ ] No errors in logs\n"
      else "")
    criteria ++
      "- [ ] Documented review findings\n- [ ] Either: Approved and ready for next step\n- [ ] Or: Issues documented with clear fixes needed\n- [ ] Changes committed to git\n"
  else
    let criteria :=
      "\n- [ ] Task completed: " ++ subtask.description
        ++ "\n- [ ] Code follows project conventions\n- [ ] Changes committed to git\n- [ ] TASKS.md updated with progress\n"
    let criteria := criteria ++
      (if subtask.agent == AgentType.claude_code && !is_review then
        "- [ ] Tested on server (if applicable)\n- [ ] No errors in logs\n"
      else "")
    criteria ++
      (if subtask.agent == AgentType.codex then
        "- [ ] Documentation is clear and complete\n- [ ] YAML is valid (if applicable)\n"
      else "")

/-- Embeds `PromptGenerator._get_completion_status` (lines 712-718). -/
def get_completion_status (task : Task) (subtask : Subtask) : String :=
  match find_next_subtask task subtask with
  | some next_subtask => "In Progress - Next: " ++ next_subtask.agent.value
  | none => "Complete - Ready for next task"

/-- Embeds `PromptGenerator.generate_prompt` (lines 433-533).  The
`session_state` parameter is accepted, as in the source, and never read. -/
def generate_prompt (task : Task) (subtask : Subtask) (session_state : SessionState) : String :=
  let next_subtask := find_next_subtask task subtask
  let prompt :=
    "# AGENT ASSIGNMENT: " ++ subtask.agent.value
      ++ "\n\n## 🎯 Your Task\n\n**" ++ subtask.description
      ++ "**\n\n**Project:** " ++ task.project
      ++ "\n**Estimated Time:** " ++ toString subtask.estimated_minutes
      ++ " minutes\n**Priority:** " ++ task.priority.name
      ++ "\n\n---\n\n## 📖 Context to Read First\n\n"
  let prompt := prompt ++
    (if !task.context_files.isEmpty then
      String.join (task.context_files.map fun ctx_file => "1. " ++ ctx_file ++ "\n")
    else
      "1. " ++ task.project ++ "/LOCAL_CONTEXT.md (2 min overview)\n"
        ++ "2. " ++ task.project ++ "/TASKS.md (check your assignment)\n"
        ++ "3. .github/AGENTS.md (understand your role)\n")
  let prompt := prompt
    ++ "\n---\n\n## 🔨 What You Need to Do\n\n"
    ++ get_task_specific_instructions task subtask
    ++ "\n\n---\n\n## ✅ Success Criteria\n\n"
  let prompt := prompt ++ generate_success_criteria task subtask
  let prompt := prompt
    ++ "\n---\n\n## 📝 Commit Instructions\n\nWhen you complete this work:\n\n1. **Commit your changes** with message:\n   ```\n   Task: "
    ++ task.name ++ " - " ++ subtask.description
    ++ "\n   \n   Completed by " ++ subtask.agent.value
    ++ "\n   Part of larger task decomposition\n   \n   Status: "
    ++ get_completion_status task subtask
    ++ "\n   ```\n\n2. **Update TASKS.md** to mark this subtask as complete\n\n3. **Hand off to next agent:**\n"
  let prompt := prompt ++
    (match next_subtask with
     | some ns =>
       "\n   Run `./session_router.py --next` to get the next prompt.\n   \n   **Next Agent:** "
         ++ ns.agent.value ++ "\n   **Next Task:** " ++ ns.description ++ "\n"
     | none =>
       "\n   This is the FINAL subtask for \"" ++ task.name
         ++ "\".\n   \n   Run `./session_router.py --next` to mark task complete and pick next work.\n")
  prompt
    ++ "\n---\n\n## 🔄 Handoff Protocol\n\n**IMPORTANT:** When you finish:\n1. Commit your work\n2. Push to git\n3. Tell the user: \"Run `./session_router.py --next` to continue\"\n\nThe router will automatically detect your completed work and generate the next prompt.\n\n---\n\n"

/-- Auxiliary: appending the same string twice instead of once to the
completed list does not change membership tests. -/
theorem contains_append_dup (c : List String) (i x : String) :
    ((c ++ [i]) ++ [i]).contains x = (c ++ [i]).contains x := by
  simp

/-- C1: `nextActionable` (`_find_next_incomplete_subtask`) scans the subtask
chain in order and returns the first subtask that is not yet completed and
whose whole dependency set is contained in `completed_subtasks`; every
subtask passed over is either completed or has an unmet dependency, so a
returned subtask never has an unmet dependency; and when every subtask id of
the chain is completed it returns none. -/
theorem nextActionable_first_eligible (task : Task) (st : SessionState) :
    (∀ s, find_next_incomplete_subtask task st = some s →
      s.id ∉ st.completed_subtasks ∧
      (∀ dep ∈ s.dependencies, dep ∈ st.completed_subtasks) ∧
      ∃ l1 l2, task.subtasks = l1 ++ s :: l2 ∧
        ∀ t1 ∈ l1, t1.id ∈ st.completed_subtasks ∨
          ∃ dep ∈ t1.dependencies, dep ∉ st.completed_subtasks)
    ∧ ((∀ s ∈ task.subtasks, s.id ∈ st.completed_subtasks) →
      find_next_incomplete_subtask task st = none)
    ∧ (find_next_incomplete_subtask task st = none →
      ∀ s ∈ task.subtasks, s.id ∈ st.completed_subtasks ∨
        ∃ dep ∈ s.dependencies, dep ∉ st.completed_subtasks) := by
  refine ⟨?_, ?_, ?_⟩
  · intro s hs
    rw [find_next_incomplete_subtask, List.find?_eq_some] at hs
    obtain ⟨hp, l1, l2, heq, hfirst⟩ := hs
    simp only [Bool.and_eq_true, Bool.not_eq_true', List.all_eq_true] at hp
    obtain ⟨hid, hdeps⟩ := hp
    refine ⟨by simpa using hid, by simpa using hdeps, l1, l2, heq, ?_⟩
    intro t1 ht1
    have hn := hfirst t1 ht1
    simp only [Bool.not_and, Bool.not_not, Bool.or_eq_true, Bool.not_eq_true'] at hn
    rcases hn with h | h
    · left; simpa using h
    · right; simpa using h
  · intro h
    rw [find_next_incomplete_subtask, List.find?_eq_none]
    intro x hx
    simp [h x hx]
  · intro h s hs
    rw [find_next_incomplete_subtask, List.find?_eq_none] at h
    have hn := h s hs
    by_cases hcid : st.completed_subtasks.contains s.id = true
    · left; simpa using hcid
    · right
      have hcid' : st.completed_subtasks.contains s.id = false := by
        cases hq : st.completed_subtasks.contains s.id
        · rfl
        · exact absurd hq hcid
      have hall : (s.dependencies.all fun dep => st.completed_subtasks.contains dep)
          = false := by
        cases hb : (s.dependencies.all fun dep => st.completed_subtasks.contains dep) with
        | false => rfl
        | true => exact absurd (by rw [hcid', hb]; rfl) hn
      rw [List.all_eq_false] at hall
      obtain ⟨dep, hdep, hfalse⟩ := hall
      exact ⟨dep, hdep, by simpa using hfalse⟩

/-- Witness for C1: on the spec's scenario 3/4 ledger, the theorem's second
conjunct evaluates `nextActionable` to none once every id is completed. -/
theorem nextActionable_first_eligible_witness :
    find_next_incomplete_subtask
      { id := "t1", name := "Implement foo", project := "p",
        status := Status.not_started, priority := Priority.medium,
        estimated_minutes := 60, agent := AgentType.codex, description := "",
        subtasks :=
          [ { id := "t1_plan", description := "", agent := AgentType.chatgpt,
              estimated_minutes := 10 },
            { id := "t1_implement", description := "", agent := AgentType.codex,
              estimated_minutes := 30, dependencies := ["t1_plan"] } ] }
      { completed_subtasks := ["t1_plan", "t1_implement"] } = none :=
  (nextActionable_first_eligible _ _).2.1 (by decide)

/-- C2: any task whose lower-cased name contains "implement" or "create" is
decomposed into exactly the plan → implement → review → test chain, with the
implement stage carrying `estimated_minutes - 30` (unclamped, so zero or
negative for short tasks) and each later stage depending on its predecessor. -/
theorem decompose_implement_chain (t : Task)
    (h : strContains (str_lower t.name) ("implement") = true ∨
      strContains (str_lower t.name) ("create") = true) :
    decompose_task t =
      [ { id := t.id ++ "_plan",
          description := "Plan implementation for: " ++ t.name,
          agent := AgentType.chatgpt,
          estimated_minutes := 10,
          dependencies := [],
          parallel_ok := false },
        { id := t.id ++ "_implement",
          description := "Implement: " ++ t.name,
          agent := t.agent,
          estimated_minutes := t.estimated_minutes - 30,
          dependencies := [t.id ++ "_plan"],
          parallel_ok := false },
        { id := t.id ++ "_review",
          description := "Review implementation: " ++ t.name,
          agent := AgentType.codex,
          estimated_minutes := 10,
          dependencies := [t.id ++ "_implement"],
          parallel_ok := false },
        { id := t.id ++ "_test",
          description := "Test and validate: " ++ t.name,
          agent := AgentType.claude_code,
          estimated_minutes := 10,
          dependencies := [t.id ++ "_review"],
          parallel_ok := false } ] := by
  unfold decompose_task
  rcases h with h | h <;> simp [h]

/-- Witness for C2: the spec's scenario 2 task ("Implement foo", 20 minutes)
fires the hypothesis and yields an implement stage of 20 - 30 = -10 minutes. -/
theorem decompose_implement_chain_witness :
    decompose_task
      { id := "t1", name := "Implement foo", project := "p",
        status := Status.not_started, priority := Priority.medium,
        estimated_minutes := 20, agent := AgentType.codex, description := "" } =
      [ { id := "t1_plan", description := "Plan implementation for: Implement foo",
          agent := AgentType.chatgpt, estimated_minutes := 10,
          dependencies := [], parallel_ok := false },
        { id := "t1_implement", description := "Implement: Implement foo",
          agent := AgentType.codex, estimated_minutes := -10,
          dependencies := ["t1_plan"], parallel_ok := false },
        { id := "t1_review", description := "Review implementation: Implement foo",
          agent := AgentType.codex, estimated_minutes := 10,
          dependencies := ["t1_implement"], parallel_ok := false },
        { id := "t1_test", description := "Test and validate: Implement foo",
          agent := AgentType.claude_code, estimated_minutes := 10,
          dependencies := ["t1_review"], parallel_ok := false } ] :=
  (decompose_implement_chain _ (Or.inl (by decide))).trans (by decide)

/-- C4: `markComplete` is idempotent at the observable level: appending the
same subtask id twice leaves `nextActionable` unchanged versus appending it
once, for every task and ledger state. -/
theorem markComplete_idempotent (task : Task) (st : SessionState) (i : String) :
    find_next_incomplete_subtask task (mark_complete (mark_complete st i) i) =
      find_next_incomplete_subtask task (mark_complete st i) := by
  unfold find_next_incomplete_subtask mark_complete
  simp only [contains_append_dup]

/-- C5: `decompose` is deterministic: two tasks agreeing on id, name, project,
agent and estimated minutes decompose to identical subtask sequences. -/
theorem decompose_deterministic (t1 t2 : Task)
    (hid : t1.id = t2.id) (hname : t1.name = t2.name)
    (hproject : t1.project = t2.project) (hagent : t1.agent = t2.agent)
    (hmin : t1.estimated_minutes = t2.estimated_minutes) :
    decompose_task t1 = decompose_task t2 := by
  unfold decompose_task
  rw [hid, hname, hproject, hagent, hmin]

/-- Witness for C5: two tasks that differ in status, priority, description and
block lists but agree on the five inputs get the same decomposition. -/
theorem decompose_deterministic_witness :
    decompose_task
      { id := "a", name := "Fix lights", project := "p",
        status := Status.not_started, priority := Priority.high,
        estimated_minutes := 50, agent := AgentType.codex,
        description := "one", blocks_tasks := ["x"] } =
    decompose_task
      { id := "a", name := "Fix lights", project := "p",
        status := Status.in_progress, priority := Priority.low,
        estimated_minutes := 50, agent := AgentType.codex,
        description := "two", blocked_by := ["y"] } :=
  decompose_deterministic _ _ rfl rfl rfl rfl rfl

/-- Left-cancellation for string append. -/
theorem str_append_cancel {a b c : String} (h : a ++ b = a ++ c) : b = c := by
  cases a with | mk da =>
  cases b with | mk db =>
  cases c with | mk dc =>
  simp only [String.ext_iff, String.data_append] at h ⊢
  exact List.append_cancel_left h

/-- Appending a fixed prefix to distinct strings yields distinct strings. -/
theorem str_append_injective (a : String) : Function.Injective (fun s => a ++ s) :=
  fun _ _ h => str_append_cancel h

/-- C9: every decomposition is a non-empty chain whose subtask ids are
pairwise distinct, each id being the task's id followed by an
underscore-prefixed suffix. -/
theorem decompose_ids_wellformed (t : Task) :
    decompose_task t ≠ [] ∧
    ((decompose_task t).map Subtask.id).Nodup ∧
    ∀ s ∈ decompose_task t, ∃ suf : String, s.id = t.id ++ ("_" ++ suf) := by
  unfold decompose_task
  split_ifs <;>
    refine ⟨by simp, ?_, ?_⟩
  case _ =>
    show (List.map (fun s => t.id ++ s) ["_plan", "_implement", "_review", "_test"]).Nodup
    exact (by decide : (["_plan", "_implement", "_review", "_test"] : List String).Nodup).map
      (str_append_injective t.id)
  case _ =>
    intro s hs
    simp only [List.mem_cons, List.not_mem_nil, or_false] at hs
    rcases hs with rfl | rfl | rfl | rfl
    · exact ⟨"plan", by rw [(by decide : ("_plan" : String) = "_" ++ "plan")]⟩
    · exact ⟨"implement", by rw [(by decide : ("_implement" : String) = "_" ++ "implement")]⟩
    · exact ⟨"review", by rw [(by decide : ("_review" : String) = "_" ++ "review")]⟩
    · exact ⟨"test", by rw [(by decide : ("_test" : String) = "_" ++ "test")]⟩
  case _ =>
    show (List.map (fun s => t.id ++ s) ["_research", "_document", "_review"]).Nodup
    exact (by decide : (["_research", "_document", "_review"] : List String).Nodup).map
      (str_append_injective t.id)
  case _ =>
    intro s hs
    simp only [List.mem_cons, List.not_mem_nil, or_false] at hs
    rcases hs with rfl | rfl | rfl
    · exact ⟨"research", by rw [(by decide : ("_research" : String) = "_" ++ "research")]⟩
    · exact ⟨"document", by rw [(by decide : ("_document" : String) = "_" ++ "document")]⟩
    · exact ⟨"review", by rw [(by decide : ("_review" : String) = "_" ++ "review")]⟩
  case _ =>
    show (List.map (fun s => t.id ++ s) ["_yaml", "_review", "_validate", "_test"]).Nodup
    exact (by decide : (["_yaml", "_review", "_validate", "_test"] : List String).Nodup).map
      (str_append_injective t.id)
  case _ =>
    intro s hs
    simp only [List.mem_cons, List.not_mem_nil, or_false] at hs
    rcases hs with rfl | rfl | rfl | rfl
    · exact ⟨"yaml", by rw [(by decide : ("_yaml" : String) = "_" ++ "yaml")]⟩
    · exact ⟨"review", by rw [(by decide : ("_review" : String) = "_" ++ "review")]⟩
    · exact ⟨"validate", by rw [(by decide : ("_validate" : String) = "_" ++ "validate")]⟩
    · exact ⟨"test", by rw [(by decide : ("_test" : String) = "_" ++ "test")]⟩
  case _ =>
    show (List.map (fun s => t.id ++ s) ["_fix", "_verify"]).Nodup
    exact (by decide : (["_fix", "_verify"] : List String).Nodup).map
      (str_append_injective t.id)
  case _ =>
    intro s hs
    simp only [List.mem_cons, List.not_mem_nil, or_false] at hs
    rcases hs with rfl | rfl
    · exact ⟨"fix", by rw [(by decide : ("_fix" : String) = "_" ++ "fix")]⟩
    · exact ⟨"verify", by rw [(by decide : ("_verify" : String) = "_" ++ "verify")]⟩
  case _ =>
    show (List.map (fun s => t.id ++ s) ["_complete"]).Nodup
    exact (by decide : (["_complete"] : List String).Nodup).map
      (str_append_injective t.id)
  case _ =>
    intro s hs
    simp only [List.mem_cons, List.not_mem_nil, or_false] at hs
    rcases hs with rfl
    exact ⟨"complete", by rw [(by decide : ("_complete" : String) = "_" ++ "complete")]⟩

/-- Witness for C9: the suffix clause evaluated on a concrete default-pattern
task. -/
theorem decompose_ids_wellformed_witness :
    ∃ suf : String,
      (Subtask.mk ("t9_complete") ("Tidy") AgentType.codex 30 [] false
        Status.not_started "").id = "t9" ++ ("_" ++ suf) :=
  (decompose_ids_wellformed
      { id := "t9", name := "Tidy", project := "p", status := Status.not_started,
        priority := Priority.medium, estimated_minutes := 30,
        agent := AgentType.codex, description := "" }).2.2 _ (by decide)

/-- The linear-chain shape that every decomposition pattern produces: the
first subtask depends on exactly `prev`, and each later subtask depends on
exactly its immediate predecessor. -/
def chain_from (prev : List String) : List Subtask → Prop
  | [] => True
  | s :: rest => s.dependencies = prev ∧ chain_from [s.id] rest

/-- In a linear chain whose entry dependencies are already completed, a `none`
answer from the scheduler forces every subtask id to be completed. -/
theorem chain_find?_none_all_complete (completed : List String) :
    ∀ (l : List Subtask) (prev : List String),
      chain_from prev l →
      (∀ d ∈ prev, completed.contains d = true) →
      l.find? (fun s => !(completed.contains s.id)
        && s.dependencies.all fun dep => completed.contains dep) = none →
      ∀ s ∈ l, completed.contains s.id = true := by
  intro l
  induction l with
  | nil => intro prev _ _ _ s hs; cases hs
  | cons s rest ih =>
    intro prev hchain hprev hnone x hx
    obtain ⟨hdep, hrest⟩ := hchain
    have hall : s.dependencies.all (fun dep => completed.contains dep) = true := by
      rw [hdep, List.all_eq_true]
      exact hprev
    have hp : (!(completed.contains s.id)
        && s.dependencies.all fun dep => completed.contains dep) = false := by
      cases hb : (!(completed.contains s.id)
          && s.dependencies.all fun dep => completed.contains dep) with
      | false => rfl
      | true =>
        have hfind : List.find? (fun s => !(completed.contains s.id)
            && s.dependencies.all fun dep => completed.contains dep) (s :: rest) = some s :=
          List.find?_cons_of_pos _ hb
        rw [hfind] at hnone
        exact Option.noConfusion hnone
    have hsid : completed.contains s.id = true := by
      rw [hall, Bool.and_true, Bool.not_eq_false'] at hp
      exact hp
    cases hx with
    | head => exact hsid
    | tail _ hx =>
      refine ih [s.id] hrest ?_ ?_ x hx
      · intro d hd
        simp only [List.mem_singleton] at hd
        rwa [hd]
      · have hfind : List.find? (fun s => !(completed.contains s.id)
            && s.dependencies.all fun dep => completed.contains dep) (s :: rest) =
            List.find? (fun s => !(completed.contains s.id)
              && s.dependencies.all fun dep => completed.contains dep) rest :=
          List.find?_cons_of_neg _ (fun hcon => by
            simp only [hp] at hcon
            exact Bool.noConfusion hcon)
        rw [hfind] at hnone
        exact hnone

/-- Every decomposition pattern yields a linear chain with no entry
dependencies. -/
theorem decompose_chain (t : Task) : chain_from [] (decompose_task t) := by
  unfold decompose_task
  split_ifs <;> simp [chain_from]

/-- C10: on a chain produced by `decompose`, the scheduler answers none
exactly when every subtask id of the chain is completed; it cannot stall on
an incomplete chain, because the first incomplete subtask of a linear chain
always has its dependency set completed. -/
theorem decompose_nextActionable_none_iff (t : Task) (st : SessionState) :
    find_next_incomplete_subtask { t with subtasks := decompose_task t } st = none ↔
      ∀ s ∈ decompose_task t, s.id ∈ st.completed_subtasks := by
  constructor
  · intro h s hs
    have hc := chain_find?_none_all_complete st.completed_subtasks (decompose_task t) []
      (decompose_chain t) (by simp) (by simpa [find_next_incomplete_subtask] using h) s hs
    simpa using hc
  · intro h
    rw [find_next_incomplete_subtask, List.find?_eq_none]
    intro x hx
    simp only at hx
    simp [h x hx]

/-- Witness for C10: a completed 2-stage fix chain evaluates to none. -/
theorem decompose_nextActionable_none_iff_witness :
    find_next_incomplete_subtask
      { id := "f", name := "Fix gate", project := "p",
        status := Status.not_started, priority := Priority.medium,
        estimated_minutes := 30, agent := AgentType.codex, description := "",
        subtasks := decompose_task
          { id := "f", name := "Fix gate", project := "p",
            status := Status.not_started, priority := Priority.medium,
            estimated_minutes := 30, agent := AgentType.codex, description := "" } }
      { completed_subtasks := ["f_fix", "f_verify"] } = none :=
  (decompose_nextActionable_none_iff
      { id := "f", name := "Fix gate", project := "p",
        status := Status.not_started, priority := Priority.medium,
        estimated_minutes := 30, agent := AgentType.codex, description := "" }
      { completed_subtasks := ["f_fix", "f_verify"] }).mpr (by decide)

/-- C6: `load` never surfaces an error: on every path where loading actually
raises — the ledger file is absent, its text fails to parse as JSON, or the
parsed value is rejected by `SessionState(**data)` (which happens exactly for
a non-mapping or an unexpected keyword; the dataclass accepts ill-typed
values for known fields and then `_load_state` returns that non-empty state
unchanged) — `_load_state` returns the empty ledger: all optional fields
none (JSON null), `last_updated` empty, `completed_subtasks` the empty list.
(In the embedding the function is total, mirroring the `try/except` that
swallows every exception.) -/
theorem load_state_fallback (ledger : Option (Option Json))
    (h : ledger = none ∨ ledger = some none ∨
      ∃ v, ledger = some (some v) ∧ decodeSessionState v = none) :
    load_state ledger =
      { last_task_id := Json.null, last_subtask_id := Json.null,
        last_agent := Json.null, last_updated := Json.str "",
        completed_subtasks := Json.arr [] } := by
  rcases h with rfl | rfl | ⟨v, rfl, hv⟩
  · rfl
  · rfl
  · simp [load_state, hv]

/-- Witness for C6: a ledger file whose contents fail to parse as JSON loads
as the empty ledger. -/
theorem load_state_fallback_witness :
    load_state (some none) =
      { last_task_id := Json.null, last_subtask_id := Json.null,
        last_agent := Json.null, last_updated := Json.str "",
        completed_subtasks := Json.arr [] } :=
  load_state_fallback (some none) (Or.inr (Or.inl rfl))

/-- C8: `render` (`generate_prompt`) is pure in the embedding and its output
is independent of the session state passed in — in particular of
`completed_subtasks`: any two states yield the same document for the same
task and subtask.  (The source accepts `session_state` and never reads or
writes it; mutation-freedom holds because the embedding of the function body
needs no state-updating at all.) -/
theorem generate_prompt_state_independent (task : Task) (subtask : Subtask)
    (s1 s2 : SessionState) :
    generate_prompt task subtask s1 = generate_prompt task subtask s2 := rfl

/-- C7 counterexample: with a valid workspace, an empty ledger (no previous
task recorded) and any backlog, `--next` exits with code 0 — not 1 as the
claim requires for every flag. -/
theorem main_exit_next_counterexample :
    main_exit true (some ("--next")) {} [] = 0 ∧
      main_exit true (some ("--next")) {} [] ≠ 1 := by
  decide

/-- C7 amended: the CLI exits 1 when no workspace context is available, and
for `--last` exactly when no previous task is recorded or the recorded id no
longer resolves; but `--next` always exits 0, even with no previous task, and
every other invocation (interactive mode included) ends with exit code 0. -/
theorem main_exit_codes (hg : Bool) (arg : Option String) (st : SessionState)
    (tasks : List Task) :
    (hg = false → main_exit hg arg st tasks = 1)
    ∧ (hg = true → arg = some ("--next") → main_exit hg arg st tasks = 0)
    ∧ (hg = true → arg = some ("--last") → st.last_task_id = none →
        main_exit hg arg st tasks = 1)
    ∧ (hg = true → arg = some ("--last") → ∀ tid, st.last_task_id = some tid →
        (tasks.find? (fun t => t.id == tid) = none →
          main_exit hg arg st tasks = 1)
        ∧ (∀ t0, tasks.find? (fun t => t.id == tid) = some t0 →
          main_exit hg arg st tasks = 0))
    ∧ (hg = true →
        (arg = none ∨ ∃ a, arg = some a ∧ a ≠ "--next" ∧ a ≠ "--last") →
        main_exit hg arg st tasks = 0) := by
  refine ⟨?_, ?_, ?_, ?_, ?_⟩
  · intro h; subst h; rfl
  · intro h ha; subst h; subst ha; simp [main_exit]
  · intro h ha hid; subst h; subst ha; simp [main_exit, hid]
  · intro h ha tid hid
    subst h; subst ha
    constructor
    · intro hfind; simp [main_exit, hid, hfind]
    · intro t0 hfind; simp [main_exit, hid, hfind]
  · intro h ha
    subst h
    rcases ha with rfl | ⟨a, rfl, hn, hl⟩
    · rfl
    · simp [main_exit, hn, hl]

/-- Witness for C7: the `--last` flag with an empty ledger exits 1, and a
missing workspace exits 1, via the amended theorem at concrete inputs. -/
theorem main_exit_codes_witness :
    main_exit true (some ("--last")) {} [] = 1 ∧
      main_exit false none {} [] = 1 :=
  ⟨(main_exit_codes true (some ("--last")) {} []).2.2.1 rfl rfl rfl,
   (main_exit_codes false none {} []).1 rfl⟩

/-- The backlog key comparison is total. -/
theorem lexLE_total (x y : Nat × Nat × Nat × Int) :
    lexLE x y = true ∨ lexLE y x = true := by
  obtain ⟨a1, a2, a3, a4⟩ := x
  obtain ⟨b1, b2, b3, b4⟩ := y
  simp only [lexLE]
  split_ifs <;> simp_all <;> omega

/-- The backlog key comparison is transitive. -/
theorem lexLE_trans (x y z : Nat × Nat × Nat × Int)
    (h1 : lexLE x y = true) (h2 : lexLE y z = true) : lexLE x z = true := by
  obtain ⟨a1, a2, a3, a4⟩ := x
  obtain ⟨b1, b2, b3, b4⟩ := y
  obtain ⟨c1, c2, c3, c4⟩ := z
  simp only [lexLE] at h1 h2 ⊢
  split_ifs at h1 h2 ⊢ <;> simp_all <;> omega

instance : IsTotal Task taskLe :=
  ⟨fun a b => lexLE_total (taskKey a) (taskKey b)⟩

instance : IsTrans Task taskLe :=
  ⟨fun a b c h1 h2 => lexLE_trans (taskKey a) (taskKey b) (taskKey c) h1 h2⟩

/-- C3 counterexample: two tasks in the same project, both Not Started and of
Medium priority, one blocking two other tasks and one blocking none.  The
claim places the heavier blocker first; the code sorts `len(blocks_tasks)`
ascending and puts it last. -/
theorem backlog_ranking_blocks_counterexample :
    rank_project_tasks
      [ { id := "a", name := "Alpha", project := "p",
          status := Status.not_started, priority := Priority.medium,
          estimated_minutes := 30, agent := AgentType.codex, description := "",
          blocks_tasks := ["x", "y"] },
        { id := "b", name := "Beta", project := "p",
          status := Status.not_started, priority := Priority.medium,
          estimated_minutes := 30, agent := AgentType.codex, description := "",
          blocks_tasks := [] } ] =
      [ { id := "b", name := "Beta", project := "p",
          status := Status.not_started, priority := Priority.medium,
          estimated_minutes := 30, agent := AgentType.codex, description := "",
          blocks_tasks := [] },
        { id := "a", name := "Alpha", project := "p",
          status := Status.not_started, priority := Priority.medium,
          estimated_minutes := 30, agent := AgentType.codex, description := "",
          blocks_tasks := ["x", "y"] } ] ∧
    rank_project_tasks
      [ { id := "a", name := "Alpha", project := "p",
          status := Status.not_started, priority := Priority.medium,
          estimated_minutes := 30, agent := AgentType.codex, description := "",
          blocks_tasks := ["x", "y"] },
        { id := "b", name := "Beta", project := "p",
          status := Status.not_started, priority := Priority.medium,
          estimated_minutes := 30, agent := AgentType.codex, description := "",
          blocks_tasks := [] } ] ≠
      [ { id := "a", name := "Alpha", project := "p",
          status := Status.not_started, priority := Priority.medium,
          estimated_minutes := 30, agent := AgentType.codex, description := "",
          blocks_tasks := ["x", "y"] },
        { id := "b", name := "Beta", project := "p",
          status := Status.not_started, priority := Priority.medium,
          estimated_minutes := 30, agent := AgentType.codex, description := "",
          blocks_tasks := [] } ] := by
  decide

/-- C3 amended: within each project group the non-Complete tasks are sorted
ascending by the composite key (isNotInProgress, priorityOrdinal, blocksCount,
estimatedMinutes) — blocksCount ascending, so among tasks tied on In-Progress
status and priority the task that blocks FEWER other tasks is placed first —
and the sort is stable: the output is a permutation of the group, pairwise
ordered by the key, and any key-ordered pair keeps its backlog source order. -/
theorem backlog_ranking_sorted (tasks : List Task) (project : String) :
    (show_backlog_group tasks project).Perm (backlog_project_tasks tasks project)
    ∧ (show_backlog_group tasks project).Sorted taskLe
    ∧ ∀ a b, taskLe a b → List.Sublist [a, b] (backlog_project_tasks tasks project) →
        List.Sublist [a, b] (show_backlog_group tasks project) :=
  ⟨List.perm_insertionSort taskLe _,
   List.sorted_insertionSort taskLe _,
   fun _ _ hab hsub => List.pair_sublist_insertionSort hab hsub⟩

/-- Witness for C3: the stability clause applied to two key-tied tasks of one
project keeps them in source order in the displayed group. -/
theorem backlog_ranking_sorted_witness :
    List.Sublist
      [ { id := "a", name := "Alpha", project := "p",
          status := Status.not_started, priority := Priority.medium,
          estimated_minutes := 30, agent := AgentType.codex, description := "" },
        { id := "b", name := "Beta", project := "p",
          status := Status.not_started, priority := Priority.medium,
          estimated_minutes := 30, agent := AgentType.codex, description := "" } ]
      (show_backlog_group
        [ { id := "a", name := "Alpha", project := "p",
            status := Status.not_started, priority := Priority.medium,
            estimated_minutes := 30, agent := AgentType.codex, description := "" },
          { id := "b", name := "Beta", project := "p",
            status := Status.not_started, priority := Priority.medium,
            estimated_minutes := 30, agent := AgentType.codex, description := "" } ]
        ("p")) :=
  (backlog_ranking_sorted _ _).2.2 _ _ (by decide) (List.Sublist.refl _)

end SessionRouter
